import Mathlib

/-!
Shallow embedding of `src/static/js/single_comp.js`.

The script defines a static toolbar markup string `toolbarHTML`, injects it
into two DOM mount points, constructs two Chart.js charts (a scatter chart
and a bar chart) with hardcoded data, and defines two utility functions
`downloadChart` and `expandChart` operating on canvas elements by id.

The DOM is modelled as an association list from element id to element.
JavaScript faults (calling a method on `null`, or a missing method on a
non-canvas element) are modelled by the `JSFault` type; fallible operations
return `Option` or `Except JSFault`.
-/

/-- A DOM element: its tag name, its inner markup, and the attributes the
script reads or writes (`toDataURL` result for canvases, `download` and
`href` for anchors). -/
structure Elem where
  tag : String
  innerHTML : String
  dataURL : String
  download : String
  href : String
deriving DecidableEq

/-- A document: the elements reachable by `document.getElementById`,
keyed by id.  Lookup returns the first element with the given id. -/
abbrev Document := List (String × Elem)

/-- Lookup `document.getElementById(id)`: first element with the given id,
or `none` (JavaScript `null`). -/
def getElementById : Document → String → Option Elem
  | [], _ => none
  | (i, e) :: rest, id => if i = id then some e else getElementById rest id

/-- Assignment `element.innerHTML = h` on the element found by id: mutation,
modelled as returning the updated document; `none` models the TypeError of
assigning to a property of `null` when no element has the id. -/
def setInnerHTML : Document → String → String → Option Document
  | [], _, _ => none
  | (i, e) :: rest, id, h =>
    if i = id then some ((i, { e with innerHTML := h }) :: rest)
    else
      match setInnerHTML rest id h with
      | none => none
      | some rest' => some ((i, e) :: rest')

/-- Reading `element.innerHTML` of the element found by id. -/
def getInnerHTML (doc : Document) (id : String) : Option String :=
  (getElementById doc id).map Elem.innerHTML

/-- An unguarded JavaScript runtime fault.  The only fault this script can
raise is a TypeError (method call on `null` or on an element lacking the
method). -/
inductive JSFault where
  | typeError
deriving DecidableEq

/-- Method `canvas.toDataURL()`: defined only on canvas elements; on anything else
the method is absent (TypeError), modelled as `none`. -/
def Elem.toDataURL (e : Elem) : Option String :=
  if e.tag = "canvas" then some e.dataURL else none

/-- Acquisition of the 2-D context via `getElementById`: faults if the id does
not resolve or the element is not a canvas. -/
def getContext2d (doc : Document) (id : String) : Except JSFault Unit :=
  match getElementById doc id with
  | none => .error .typeError
  | some e => if e.tag = "canvas" then .ok () else .error .typeError

/-- The template literal `toolbarHTML` from lines 1-23 of the source,
verbatim. -/
def toolbarHTML : String :=
  "\n" ++
  "  <label>Select Parameter</label>\n" ++
  "  <select class=\"form-select\">\n" ++
  "    <option>Revenue</option>\n" ++
  "    <option>Profit</option>\n" ++
  "    <option>Employee Count</option>\n" ++
  "  </select>\n" ++
  "\n" ++
  "  <label>Preference</label>\n" ++
  "  <div class=\"btn-group\" role=\"group\">\n" ++
  "    <button class=\"btn btn-outline-info\">Prefer Higher Value</button>\n" ++
  "    <button class=\"btn btn-outline-info\">Prefer Lower Value</button>\n" ++
  "  </div>\n" ++
  "\n" ++
  "  <label>Min Value</label>\n" ++
  "  <input type=\"number\" class=\"form-control\" placeholder=\"e.g. 10\">\n" ++
  "\n" ++
  "  <label>Max Value</label>\n" ++
  "  <input type=\"number\" class=\"form-control\" placeholder=\"e.g. 1000\">\n" ++
  "\n" ++
  "  <label>Number of Companies</label>\n" ++
  "  <input type=\"number\" class=\"form-control\" min=\"1\" max=\"25\" placeholder=\"Max 25\">\n"

/-- Lines 26-27: inject `toolbarHTML` into both mount points, in source
order; `none` if either assignment faults. -/
def renderToolbars (doc : Document) : Option Document :=
  match setInnerHTML doc "toolbar-top" toolbarHTML with
  | none => none
  | some d1 => setInnerHTML d1 "toolbar-sidebar" toolbarHTML

/-- A scatter data point `{x:..., y:...}`. -/
structure Point where
  x : Int
  y : Int
deriving DecidableEq

/-- A scatter dataset: label, point list, marker color. -/
structure ScatterDataset where
  label : String
  data : List Point
  backgroundColor : String
deriving DecidableEq

/-- A bar dataset: label, value list, bar color. -/
structure BarDataset where
  label : String
  data : List Int
  backgroundColor : String
deriving DecidableEq

/-- The `legend` plugin options: `{display: ...}`. -/
structure LegendConfig where
  display : Bool
deriving DecidableEq

/-- The `plugins` options block. -/
structure PluginsConfig where
  legend : LegendConfig
deriving DecidableEq

/-- The chart `options` block: `responsive`, and the optional `plugins`
key (`none` when the source config omits it). -/
structure ChartOptions where
  responsive : Bool
  plugins : Option PluginsConfig
deriving DecidableEq

/-- The chart `data` block: scatter charts carry point datasets, bar charts
carry category labels and value datasets. -/
inductive ChartData where
  | scatter (datasets : List ScatterDataset)
  | bar (labels : List String) (datasets : List BarDataset)
deriving DecidableEq

/-- A full Chart.js configuration object: type tag, data, options. -/
structure ChartConfig where
  «type» : String
  data : ChartData
  options : ChartOptions
deriving DecidableEq

/-- The scatter chart configuration from lines 31-46 of the source. -/
def scatterChartConfig : ChartConfig :=
  { «type» := "scatter",
    data := ChartData.scatter
      [{ label := "Companies",
         data := [{ x := 10, y := 20 }, { x := 15, y := 25 }, { x := 20, y := 30 }],
         backgroundColor := "#00ffff" }],
    options :=
      { responsive := true,
        plugins := some { legend := { display := false } } } }

/-- The bar chart configuration from lines 49-62 of the source; its
`options` block has only `responsive`, no `plugins` key. -/
def barChartConfig : ChartConfig :=
  { «type» := "bar",
    data := ChartData.bar ["Company A", "Company B", "Company C"]
      [{ label := "Parameter",
         data := [75, 88, 64],
         backgroundColor := "#00ffff" }],
    options := { responsive := true, plugins := none } }

/-- The result of running the top-level script: the document after the
toolbar injections, the chart configurations passed to `new Chart` in
construction order, and the fault that aborted the script, if any. -/
structure ScriptResult where
  doc : Document
  charts : List ChartConfig
  fault : Option JSFault

/-- The top-level statements of the script in order: the two toolbar
injections (lines 26-27), then scatter chart construction (lines 30-46),
then bar chart construction (lines 48-62).  Execution stops at the first
fault; a `new Chart` call is reached only if the preceding
2-D context acquisition succeeded. -/
def runScript (doc : Document) : ScriptResult :=
  match setInnerHTML doc "toolbar-top" toolbarHTML with
  | none => { doc := doc, charts := [], fault := some .typeError }
  | some d1 =>
    match setInnerHTML d1 "toolbar-sidebar" toolbarHTML with
    | none => { doc := d1, charts := [], fault := some .typeError }
    | some d2 =>
      match getContext2d d2 "scatterPlot" with
      | .error f => { doc := d2, charts := [], fault := some f }
      | .ok _ =>
        match getContext2d d2 "barChart" with
        | .error f => { doc := d2, charts := [scatterChartConfig], fault := some f }
        | .ok _ =>
          { doc := d2, charts := [scatterChartConfig, barChartConfig], fault := none }

/-- A browser download action triggered by clicking an anchor that has a
`download` attribute. -/
structure DownloadAction where
  filename : String
  href : String
deriving DecidableEq

/-- Function `downloadChart(id)` from lines 64-70: look up the canvas, create a
detached anchor, set `download` to the id with a `.png` suffix, set `href`
to the canvas data URL (faulting if the element is missing or is not a
canvas), and click the anchor.  The result carries the document after the
call (the anchor is never attached, so no mutation occurs) and the list of
download actions triggered (exactly one on success). -/
def downloadChart (doc : Document) (id : String) :
    Except JSFault (Document × List DownloadAction) :=
  match getElementById doc id with
  | none => .error .typeError
  | some canvas =>
    match canvas.toDataURL with
    | none => .error .typeError
    | some url =>
      let link : Elem :=
        { tag := "a", innerHTML := "", dataURL := "",
          download := id ++ ".png", href := url }
      .ok (doc, [{ filename := link.download, href := link.href }])

/-- A fullscreen presentation request issued for the element with the
given id. -/
structure FullscreenRequest where
  targetId : String
deriving DecidableEq

/-- Function `expandChart(id)` from lines 72-75: look up the element and call
`requestFullscreen()` on it; calling it on `null` is an unguarded
TypeError. -/
def expandChart (doc : Document) (id : String) :
    Except JSFault FullscreenRequest :=
  match getElementById doc id with
  | none => .error .typeError
  | some _ => .ok { targetId := id }

/-- Whether `pat` occurs at position 0 of `s`. -/
def startsWithPat : List Char → List Char → Bool
  | [], _ => true
  | _ :: _, [] => false
  | p :: ps, c :: cs => p = c && startsWithPat ps cs

/-- Number of positions of `s` at which `pat` occurs. -/
def countOccs (pat : List Char) : List Char → Nat
  | [] => 0
  | c :: rest =>
    (if startsWithPat pat (c :: rest) then 1 else 0) + countOccs pat rest

/-- Longest prefix of `s` not containing an occurrence of `pat`. -/
def takeUntilPat (pat : List Char) : List Char → List Char
  | [] => []
  | c :: rest =>
    if startsWithPat pat (c :: rest) then [] else c :: takeUntilPat pat rest

/-- Suffix of `s` after the first occurrence of `pat` (empty if none). -/
def afterFirst (pat : List Char) : List Char → List Char
  | [] => []
  | c :: rest =>
    if startsWithPat pat (c :: rest) then (c :: rest).drop pat.length
    else afterFirst pat rest

/-- Contents of each markup element opened by `openTag` and closed by
`closeTag`, in document order. -/
def taggedContents (openTag closeTag : List Char) : List Char → List (List Char)
  | [] => []
  | c :: rest =>
    if startsWithPat openTag (c :: rest) then
      takeUntilPat closeTag ((c :: rest).drop openTag.length)
        :: taggedContents openTag closeTag rest
    else taggedContents openTag closeTag rest

/-- The attribute text of the company-count input: the markup of the input
tag that follows the "Number of Companies" label in `toolbarHTML`. -/
def companyCountInputAttrs : List Char :=
  takeUntilPat ">".data
    (afterFirst "<input".data (afterFirst "Number of Companies".data toolbarHTML.data))

/-- A demo document holding just the two toolbar mount points. -/
def blankDiv : Elem :=
  { tag := "div", innerHTML := "", dataURL := "", download := "", href := "" }

/-- Demo document with both toolbar mount points present and empty. -/
def demoDoc : Document :=
  [("toolbar-top", blankDiv), ("toolbar-sidebar", blankDiv)]

/-- Result of rendering both toolbars into `demoDoc`. -/
def demoRendered : Document :=
  [("toolbar-top", { blankDiv with innerHTML := toolbarHTML }),
   ("toolbar-sidebar", { blankDiv with innerHTML := toolbarHTML })]

/-- A demo canvas element with a fixed data URL. -/
def demoCanvas : Elem :=
  { tag := "canvas", innerHTML := "", dataURL := "data:image/png;base64,AAAA",
    download := "", href := "" }

/-- A demo document holding one canvas with id "scatterPlot". -/
def canvasDoc : Document := [("scatterPlot", demoCanvas)]

/-- The successful result of `downloadChart canvasDoc "scatterPlot"`. -/
def demoDownloadResult : Document × List DownloadAction :=
  (canvasDoc, [{ filename := "scatterPlot.png", href := demoCanvas.dataURL }])

set_option maxRecDepth 4000

theorem setInnerHTML_get (doc : Document) (id h : String) (d' : Document)
    (hset : setInnerHTML doc id h = some d') :
    ∃ e, getElementById d' id = some e ∧ e.innerHTML = h := by
  induction doc generalizing d' with
  | nil => simp [setInnerHTML] at hset
  | cons p rest ih =>
    obtain ⟨i, e⟩ := p
    by_cases hc : i = id
    · simp only [setInnerHTML, if_pos hc, Option.some.injEq] at hset
      subst hset
      exact ⟨{ e with innerHTML := h }, by simp [getElementById, if_pos hc], rfl⟩
    · simp only [setInnerHTML, if_neg hc] at hset
      cases hr : setInnerHTML rest id h with
      | none => rw [hr] at hset; cases hset
      | some rest' =>
        rw [hr] at hset
        simp only [Option.some.injEq] at hset
        subst hset
        obtain ⟨e', hg, hh⟩ := ih rest' hr
        exact ⟨e', by simp [getElementById, if_neg hc, hg], hh⟩

theorem setInnerHTML_get_ne (doc : Document) (id h i2 : String) (d' : Document)
    (hne : i2 ≠ id) (hset : setInnerHTML doc id h = some d') :
    getElementById d' i2 = getElementById doc i2 := by
  induction doc generalizing d' with
  | nil => simp [setInnerHTML] at hset
  | cons p rest ih =>
    obtain ⟨i, e⟩ := p
    by_cases hc : i = id
    · simp only [setInnerHTML, if_pos hc, Option.some.injEq] at hset
      subst hset
      by_cases h2 : i = i2
      · exact absurd (h2.symm.trans hc) hne
      · simp [getElementById, if_neg h2]
    · simp only [setInnerHTML, if_neg hc] at hset
      cases hr : setInnerHTML rest id h with
      | none => rw [hr] at hset; cases hset
      | some rest' =>
        rw [hr] at hset
        simp only [Option.some.injEq] at hset
        subst hset
        by_cases h2 : i = i2
        · simp [getElementById, if_pos h2]
        · simp [getElementById, if_neg h2, ih rest' hr]

theorem setInnerHTML_noop (doc : Document) (id h : String) (e : Elem)
    (hget : getElementById doc id = some e) (hh : e.innerHTML = h) :
    setInnerHTML doc id h = some doc := by
  induction doc with
  | nil => simp [getElementById] at hget
  | cons p rest ih =>
    obtain ⟨i, e0⟩ := p
    by_cases hc : i = id
    · simp only [getElementById, if_pos hc, Option.some.injEq] at hget
      subst hget
      subst hh
      simp only [setInnerHTML, if_pos hc]
    · simp only [getElementById, if_neg hc] at hget
      simp only [setInnerHTML, if_neg hc, ih hget]

/-- C1: the scatter chart config has type "scatter", a single dataset
labeled "Companies" with exactly the points (10,20), (15,25), (20,30),
legend hidden, responsive enabled. -/
theorem scatter_chart_config_spec :
    scatterChartConfig.«type» = "scatter" ∧
    scatterChartConfig.options.responsive = true ∧
    scatterChartConfig.options.plugins = some { legend := { display := false } } ∧
    scatterChartConfig.data = ChartData.scatter
      [{ label := "Companies",
         data := [{ x := 10, y := 20 }, { x := 15, y := 25 }, { x := 20, y := 30 }],
         backgroundColor := "#00ffff" }] :=
  ⟨rfl, rfl, rfl, rfl⟩

/-- C2: the bar chart config has type "bar", labels Company A/B/C, a single
dataset "Parameter" with values 75, 88, 64, responsive enabled and no
plugins block (default legend visibility). -/
theorem bar_chart_config_spec :
    barChartConfig.«type» = "bar" ∧
    barChartConfig.options.responsive = true ∧
    barChartConfig.options.plugins = none ∧
    barChartConfig.data = ChartData.bar ["Company A", "Company B", "Company C"]
      [{ label := "Parameter", data := [75, 88, 64], backgroundColor := "#00ffff" }] :=
  ⟨rfl, rfl, rfl, rfl⟩

/-- C3: after a successful toolbar render, both mount points hold exactly
`toolbarHTML`, hence identical markup content. -/
theorem toolbar_render_identical (doc d' : Document)
    (hr : renderToolbars doc = some d') :
    getInnerHTML d' "toolbar-top" = some toolbarHTML ∧
    getInnerHTML d' "toolbar-sidebar" = some toolbarHTML ∧
    getInnerHTML d' "toolbar-top" = getInnerHTML d' "toolbar-sidebar" := by
  unfold renderToolbars at hr
  cases h1 : setInnerHTML doc "toolbar-top" toolbarHTML with
  | none => rw [h1] at hr; cases hr
  | some d1 =>
    rw [h1] at hr
    obtain ⟨e1, hg1, hh1⟩ := setInnerHTML_get doc "toolbar-top" toolbarHTML d1 h1
    obtain ⟨e2, hg2, hh2⟩ := setInnerHTML_get d1 "toolbar-sidebar" toolbarHTML d' hr
    have hpres : getElementById d' "toolbar-top" = getElementById d1 "toolbar-top" :=
      setInnerHTML_get_ne d1 "toolbar-sidebar" toolbarHTML "toolbar-top" d' (by decide) hr
    refine ⟨?_, ?_, ?_⟩ <;> simp [getInnerHTML, hpres, hg1, hg2, hh1, hh2]

theorem toolbar_render_identical_witness :
    renderToolbars demoDoc = some demoRendered ∧
    getInnerHTML demoRendered "toolbar-top" = getInnerHTML demoRendered "toolbar-sidebar" := by
  have h := toolbar_render_identical demoDoc demoRendered rfl
  exact ⟨rfl, h.2.2⟩

/-- C10: rendering the toolbars a second time is a no-op: it succeeds and
returns the same document. -/
theorem toolbar_render_idempotent (doc d' : Document)
    (hr : renderToolbars doc = some d') :
    renderToolbars d' = some d' := by
  unfold renderToolbars at hr ⊢
  cases h1 : setInnerHTML doc "toolbar-top" toolbarHTML with
  | none => rw [h1] at hr; cases hr
  | some d1 =>
    rw [h1] at hr
    obtain ⟨e1, hg1, hh1⟩ := setInnerHTML_get doc "toolbar-top" toolbarHTML d1 h1
    obtain ⟨e2, hg2, hh2⟩ := setInnerHTML_get d1 "toolbar-sidebar" toolbarHTML d' hr
    have hpres : getElementById d' "toolbar-top" = getElementById d1 "toolbar-top" :=
      setInnerHTML_get_ne d1 "toolbar-sidebar" toolbarHTML "toolbar-top" d' (by decide) hr
    have htop : setInnerHTML d' "toolbar-top" toolbarHTML = some d' :=
      setInnerHTML_noop d' "toolbar-top" toolbarHTML e1 (hpres.trans hg1) hh1
    have hside : setInnerHTML d' "toolbar-sidebar" toolbarHTML = some d' :=
      setInnerHTML_noop d' "toolbar-sidebar" toolbarHTML e2 hg2 hh2
    rw [htop]
    exact hside

theorem toolbar_render_idempotent_witness :
    renderToolbars demoDoc = some demoRendered ∧
    renderToolbars demoRendered = some demoRendered :=
  ⟨rfl, toolbar_render_idempotent demoDoc demoRendered rfl⟩

/-- C4: the toolbar fragment has exactly one select tag; the content of
that select holds exactly the options Revenue, Profit, Employee Count in
order, and these are also all the options of the whole fragment. -/
theorem toolbar_single_dropdown_three_options :
    countOccs "<select".data toolbarHTML.data = 1 ∧
    taggedContents "<option>".data "</option>".data
        (takeUntilPat "</select>".data (afterFirst "<select".data toolbarHTML.data)) =
      ["Revenue".data, "Profit".data, "Employee Count".data] ∧
    taggedContents "<option>".data "</option>".data toolbarHTML.data =
      ["Revenue".data, "Profit".data, "Employee Count".data] := by decide

/-- C5: the company-count input tag declares exactly one min attribute,
with value 1, and exactly one max attribute, with value 25. -/
theorem company_count_input_range :
    countOccs "min=".data companyCountInputAttrs = 1 ∧
    countOccs "min=\"1\"".data companyCountInputAttrs = 1 ∧
    countOccs "max=".data companyCountInputAttrs = 1 ∧
    countOccs "max=\"25\"".data companyCountInputAttrs = 1 := by decide

/-- C6: for any id resolving to a canvas element, downloadChart succeeds
and triggers exactly one download action, with filename the id followed by
".png" and href the canvas data URL. -/
theorem downloadChart_single_download (doc : Document) (id : String) (e : Elem)
    (hget : getElementById doc id = some e) (hcanvas : e.tag = "canvas") :
    downloadChart doc id =
      Except.ok (doc, [{ filename := id ++ ".png", href := e.dataURL }]) := by
  unfold downloadChart
  rw [hget]
  simp [Elem.toDataURL, hcanvas]

theorem downloadChart_single_download_witness :
    getElementById canvasDoc "scatterPlot" = some demoCanvas ∧
    downloadChart canvasDoc "scatterPlot" = Except.ok demoDownloadResult :=
  ⟨rfl, downloadChart_single_download canvasDoc "scatterPlot" demoCanvas rfl rfl⟩

/-- C7 counterexample: on an identifier resolving to no element, the code
raises an unguarded TypeError (requestFullscreen on null); no
ElementNotFound condition is reported. -/
theorem expandChart_missing_id_counterexample :
    expandChart ([] : Document) "scatterPlot" = Except.error JSFault.typeError := rfl

/-- C7 (amended): invoking expandChart with an identifier that resolves to
no element results in an unguarded runtime fault (TypeError), the only
outcome the source can produce there. -/
theorem expandChart_missing_id_faults (doc : Document) (id : String)
    (h : getElementById doc id = none) :
    expandChart doc id = Except.error JSFault.typeError := by
  unfold expandChart
  rw [h]

theorem expandChart_missing_id_faults_witness :
    getElementById ([] : Document) "barChart" = none ∧
    expandChart ([] : Document) "barChart" = Except.error JSFault.typeError :=
  ⟨rfl, expandChart_missing_id_faults [] "barChart" rfl⟩

/-- C8: if the named canvas is absent from the document, the corresponding
Chart constructor call is never reached: its config never appears in the
constructed-chart list of the script run. -/
theorem chart_init_skips_missing_canvas (doc : Document) :
    (getElementById doc "scatterPlot" = none →
      scatterChartConfig ∉ (runScript doc).charts) ∧
    (getElementById doc "barChart" = none →
      barChartConfig ∉ (runScript doc).charts) := by
  unfold runScript
  cases h1 : setInnerHTML doc "toolbar-top" toolbarHTML with
  | none => simp only [h1]; simp
  | some d1 =>
    simp only [h1]
    cases h2 : setInnerHTML d1 "toolbar-sidebar" toolbarHTML with
    | none => simp only [h2]; simp
    | some d2 =>
      simp only [h2]
      have hs : getElementById d2 "scatterPlot" = getElementById doc "scatterPlot" :=
        (setInnerHTML_get_ne d1 "toolbar-sidebar" toolbarHTML "scatterPlot" d2
          (by decide) h2).trans
        (setInnerHTML_get_ne doc "toolbar-top" toolbarHTML "scatterPlot" d1
          (by decide) h1)
      have hb : getElementById d2 "barChart" = getElementById doc "barChart" :=
        (setInnerHTML_get_ne d1 "toolbar-sidebar" toolbarHTML "barChart" d2
          (by decide) h2).trans
        (setInnerHTML_get_ne doc "toolbar-top" toolbarHTML "barChart" d1
          (by decide) h1)
      constructor
      · intro hnone
        have hctx : getContext2d d2 "scatterPlot" = Except.error JSFault.typeError := by
          unfold getContext2d
          rw [hs, hnone]
        simp only [hctx]
        simp
      · intro hnone
        have hctx : getContext2d d2 "barChart" = Except.error JSFault.typeError := by
          unfold getContext2d
          rw [hb, hnone]
        cases hc1 : getContext2d d2 "scatterPlot" with
        | error f => simp only [hc1]; simp
        | ok u =>
          have hne : barChartConfig ≠ scatterChartConfig := by decide
          simp only [hc1, hctx]
          simp [hne]

theorem chart_init_skips_missing_canvas_witness :
    (getElementById ([] : Document) "scatterPlot" = none ∧
      scatterChartConfig ∉ (runScript []).charts) ∧
    (getElementById ([] : Document) "barChart" = none ∧
      barChartConfig ∉ (runScript []).charts) := by
  have h := chart_init_skips_missing_canvas []
  exact ⟨⟨rfl, h.1 rfl⟩, ⟨rfl, h.2 rfl⟩⟩

/-- C9: downloadChart never mutates the document: whenever it returns
successfully, the document in the result is the input document (the anchor
stays detached). -/
theorem downloadChart_leaves_document_unchanged (doc : Document) (id : String)
    (r : Document × List DownloadAction)
    (h : downloadChart doc id = Except.ok r) : r.1 = doc := by
  unfold downloadChart at h
  cases hg : getElementById doc id with
  | none => rw [hg] at h; cases h
  | some e =>
    simp only [hg] at h
    cases ht : e.toDataURL with
    | none =>
      simp only [ht] at h
      cases h
    | some url =>
      simp only [ht, Except.ok.injEq] at h
      subst h
      rfl

theorem downloadChart_leaves_document_unchanged_witness :
    downloadChart canvasDoc "scatterPlot" = Except.ok demoDownloadResult ∧
    demoDownloadResult.1 = canvasDoc :=
  ⟨rfl, downloadChart_leaves_document_unchanged canvasDoc "scatterPlot" demoDownloadResult rfl⟩
